import Mathlib

/-!
Shallow embedding of `main.py` (auto-apply-playwright service), covering the
pieces the claims are about: the retry policy (`SmartRetrySystem.should_retry`),
the heuristic outcome detector (`detect_success`), the vision analysis entry
point (`analyze_screenshot_with_vision`), the vision-instruction interpreter
(`execute_vision_instructions`), and the submission orchestrator
(`apply_to_job_async` with its self-healing loop) plus the `/apply` endpoint
normalisation (`auto_apply`).

Interactions with the outside world (the live DOM, Playwright calls, the
solving service, the OpenAI HTTP API, Python `re` pattern extraction over
model-produced text) are modelled as explicit oracle inputs: every point where
the source consults the page or the network takes its outcome from an
environment record, and the definitions reproduce the source's control flow
over those outcomes.  Python dictionaries of string fields are association
lists; Python truthiness of optional strings is `truthyStr`; Python substring
tests (`x in s`) are `strContains`.
-/

/-- Python truthiness of an optional string: `None` and `""` are falsy. -/
def truthyStr : Option String → Bool
  | none => false
  | some s => !(s == "")

/-- Python `needle in hay` on strings: substring containment. -/
def strContains (hay needle : String) : Bool :=
  decide (needle.toList <:+: hay.toList)

/-- Python `s.lower()`, per-character ASCII lowering (`Char.toLower`); the
phrases the source scans for are ASCII. -/
def strLower (s : String) : String := List.asString (s.toList.map Char.toLower)

/-- Python `d.get(k)` on a string dictionary (association list). -/
def dictGet (d : List (String × String)) (k : String) : Option String :=
  (d.find? (fun p => p.1 == k)).map (fun p => p.2)

/-- Python `d.setdefault(k, v)`: insert only when the key is absent. -/
def dictSetdefault (d : List (String × String)) (k v : String) :
    List (String × String) :=
  if (d.find? (fun p => p.1 == k)).isSome then d else d ++ [(k, v)]

/-!
## SmartRetrySystem (main.py lines 32-48)

`retry_patterns` maps an error category to `(max_attempts, delay)`; the
dictionary `.get` default is `{"max_attempts": 2, "delay": 2}`.
`should_retry` returns `False` without sleeping once `attempt >= max_attempts`,
otherwise sleeps `delay` seconds and returns `True`.  The sleep is made
explicit as the second component: `none` means no sleep happened, `some d`
means `asyncio.sleep d` was awaited.
-/

/-- `SmartRetrySystem.retry_patterns` with the `.get` default. -/
def retry_patterns (error_type : String) : Nat × Nat :=
  if error_type == "captcha" then (3, 5)
  else if error_type == "network" then (5, 2)
  else if error_type == "form_not_found" then (2, 3)
  else if error_type == "submit" then (3, 4)
  else (2, 2)

/-- `SmartRetrySystem.should_retry`: result flag and the sleep performed. -/
def should_retry (error_type : String) (attempt : Nat) : Bool × Option Nat :=
  let pattern := retry_patterns error_type
  if pattern.1 ≤ attempt then (false, none)
  else (true, some pattern.2)

/-!
## Heuristic outcome detection (main.py lines 99-104 and 1454-1483)
-/

/-- `SUCCESS_HINTS` (main.py lines 99-104). -/
def SUCCESS_HINTS : List String :=
  [("thank you"), ("thanks for applying"), ("application received"),
   ("we\x27ll be in touch"), ("obrigado"), ("candidatura recebida"),
   ("application submitted"), ("successfully applied"),
   ("we will be in touch"), ("gracias"), ("candidatura enviada")]

/-- The `error_hits` list inside `detect_success` (main.py lines 1460-1462). -/
def error_hits : List String :=
  [("please fill out this field"), ("required"), ("fix the errors"),
   ("invalid")]

/-- What `detect_success` observes of the page: the rendered content, whether
`wait_for_url(u != job_url)` fired within its window, the content after that
change, and whether some page operation raised (any exception in the body is
caught and yields `False`). -/
structure PageView where
  html : String
  urlChanged : Bool
  htmlAfterChange : String
  raised : Bool
deriving DecidableEq

/-- `detect_success` (main.py lines 1454-1483): negative phrases short-circuit
to failure; otherwise positive phrases succeed; otherwise a URL change is
awaited and only the new page's positive phrases count. -/
def detect_success (pg : PageView) : Bool :=
  if pg.raised then false
  else
    let html := strLower pg.html
    if error_hits.any (fun h => strContains html h) then false
    else if SUCCESS_HINTS.any (fun h => strContains html h) then true
    else if pg.urlChanged then
      SUCCESS_HINTS.any (fun h => strContains (strLower pg.htmlAfterChange) h)
    else false

/-!
## Vision analysis (main.py lines 979-1116)

The HTTP exchange with the OpenAI API and the JSON recovery of its reply are
environment outcomes; each failure mode of the source maps to the verdict
dictionary the source builds for it.
-/

/-- One element of a verdict's `instructions` list: either a structured dict
`{action, selector, value}` (with `selector` already resolved through
`instruction.get("selector") or instruction.get("field") or ""` and `value`
through `instruction.get("value") or instruction.get("answer") or ""`), or a
free-text directive string.  `reprText` carries Python's `str()` rendering of
the dict, which the source falls back to when no structured handler fires. -/
inductive Instruction where
  | structured (action selector value reprText : String)
  | directive (text : String)
deriving DecidableEq

/-- The verdict dictionary: `success`, `reason`, `instructions`. -/
structure VisionVerdict where
  success : Bool
  reason : String
  instructions : List Instruction
deriving DecidableEq

/-- Outcome of the OpenAI call as seen by `analyze_screenshot_with_vision`. -/
inductive VisionApi where
  /-- an exception anywhere in the `try` body (reason is `str(e)`) -/
  | requestError (msg : String)
  /-- `response.status_code != 200` -/
  | httpError
  /-- `"choices"` missing or empty in the response JSON -/
  | invalidResponse
  /-- JSON decoding and the brace-regex fallback both failed -/
  | unparsable
  /-- the reply parsed into a verdict -/
  | parsed (v : VisionVerdict)
deriving DecidableEq

/-- `analyze_screenshot_with_vision` (main.py lines 979-1116), with the
instruction payloads kept abstract at this level (the orchestrator only
forwards them).  `if not openai_key:` returns the fixed no-key verdict. -/
def analyze_screenshot_with_vision (openai_key : Option String)
    (api : VisionApi) : VisionVerdict :=
  if !(truthyStr openai_key) then
    { success := false, reason := ("API key not provided"), instructions := [] }
  else
    match api with
    | .requestError msg => { success := false, reason := msg, instructions := [] }
    | .httpError => { success := false, reason := ("API error"), instructions := [] }
    | .invalidResponse =>
        { success := false, reason := ("Invalid API response"), instructions := [] }
    | .unparsable =>
        { success := false, reason := ("Failed to parse Vision response"),
          instructions := [] }
    | .parsed v => v

/-!
## Instruction interpreter (main.py lines 1119-1400)

`execute_vision_instructions` walks the list; every page interaction attempt
is wrapped in `try/except`, so each attempt's outcome is an oracle boolean.
The `re.search` extractions over model-produced free text are oracle
`Option`s, except the quoted-part lookup (a quote character, a shortest
non-empty run, a quote character), which is implemented below (`firstQuoted`).
-/

/-- A quote character (codepoints 39 and 34), as the character class of the
quoted-part pattern admits. -/
def isQuoteChar (c : Char) : Bool :=
  c == Char.ofNat 39 || c == Char.ofNat 34

/-- Characters strictly before the first quote character, or `none` when no
quote character occurs. -/
def spanToQuote : List Char → Option (List Char)
  | [] => none
  | c :: rest =>
    if isQuoteChar c then some []
    else (spanToQuote rest).map (fun l => c :: l)

/-- Leftmost match of the quoted-part search: the shortest non-empty run
between a quote character and the next quote character, scanning openers
left to right. -/
def firstQuotedAux : List Char → Option (List Char)
  | [] => none
  | c :: rest =>
    if isQuoteChar c then
      match rest with
      | [] => none
      | d :: rest2 =>
        match spanToQuote rest2 with
        | some pre => some (d :: pre)
        | none => firstQuotedAux rest
    else firstQuotedAux rest

/-- The quoted group of the quoted-part search over a string, if any. -/
def firstQuoted (s : String) : Option String :=
  (firstQuotedAux s.toList).map List.asString

/-- Oracle outcomes for one instruction's page interactions and `re.search`
extractions (each `try`-wrapped Playwright call collapses to a boolean:
`true` = the call succeeded, `false` = it failed or raised and was caught). -/
structure InstrEnv where
  /-- the nested `fill_by_label` helper (fill, then the two select fallbacks) -/
  fillByLabelOk : Bool
  /-- the `fill_field` CSS fallback -/
  fillFieldOk : Bool
  /-- structured `select`/`choose`: any of the three `select_option` attempts -/
  selectOk : Bool
  /-- the nested `check_by_label` helper -/
  checkByLabelOk : Bool
  /-- `page.locator(selector).check(...)` fallback -/
  checkSelectorOk : Bool
  /-- the nested `click_by_name` helper (button, link, `has-text` fallback) -/
  clickByNameOk : Bool
  /-- `page.locator(target).click(...)` fallback -/
  clickSelectorOk : Bool
  /-- `re.search` of the grid position pattern: (row, column) digits -/
  gridPos : Option (Nat × Nat)
  /-- some selector of the captcha-grid selector list clicked successfully -/
  gridSelectorClickOk : Bool
  /-- `page.locator("img").count()` for the nth-image fallback -/
  gridImgCount : Nat
  /-- the nth-visible-image fallback click -/
  gridFallbackClickOk : Bool
  /-- some selector of the captcha-submit selector list clicked successfully -/
  captchaSubmitOk : Bool
  /-- `re.search` of the dropdown directive pattern: (option value, name) -/
  dropdownMatch : Option (String × String)
  /-- either dropdown `select_option` attempt succeeded -/
  dropdownOk : Bool
  /-- `re.search` of the fill directive pattern: (target, quoted value) -/
  fillMatch : Option (String × String)
  /-- `re.search` of the click directive pattern: target group -/
  clickMatch : Option String
  /-- `re.search` of the select directive pattern: (quoted value, selector) -/
  selectMatch : Option (String × String)
  /-- `re.search` of the check directive pattern: target group -/
  checkMatch : Option String
  /-- `page.locator(selector.strip()).select_option(value.strip())` -/
  selectStrOk : Bool

/-- Executions contributed by one free-text directive (main.py lines
1253-1395): 1 when some page action executed successfully, else 0.  The
branch dispatch is the source's substring tests over `text.lower()`; the
`UNSOLVABLE_IFRAME` skip tests the raw text. -/
def execDirectiveText (e : InstrEnv) (text : String) : Nat :=
  if strContains text ("UNSOLVABLE_IFRAME") then 0
  else
    let lower := strLower text
    if strContains lower ("click captcha image at position") then
      match e.gridPos with
      | some rc =>
        let image_index : Int := ((rc.1 : Int) - 1) * 3 + (rc.2 : Int)
        if e.gridSelectorClickOk then 1
        else if image_index ≤ (e.gridImgCount : Int) && e.gridFallbackClickOk
        then 1
        else 0
      | none => 0
    else if strContains lower ("click captcha submit") then
      cond e.captchaSubmitOk 1 0
    else if strContains lower ("select option") && strContains lower ("dropdown")
    then
      match e.dropdownMatch with
      | some _ => cond e.dropdownOk 1 0
      | none => 0
    else if strContains lower ("fill") then
      match e.fillMatch with
      | some tv =>
        match firstQuoted tv.1 with
        | some _ => cond e.fillByLabelOk 1 0
        | none => cond e.fillFieldOk 1 0
      | none => 0
    else if strContains lower ("click") then
      match e.clickMatch with
      | some target =>
        match firstQuoted target with
        | some _ => cond e.clickByNameOk 1 0
        | none => cond e.clickSelectorOk 1 0
      | none => 0
    else if strContains lower ("select") then
      match e.selectMatch with
      | some _ => cond e.selectStrOk 1 0
      | none => 0
    else if strContains lower ("check") then
      match e.checkMatch with
      | some target =>
        match firstQuoted target with
        | some _ => cond e.checkByLabelOk 1 0
        | none => cond e.checkSelectorOk 1 0
      | none => 0
    else 0

/-- Executions contributed by one structured-dict instruction (main.py lines
1176-1251): the four action-alias blocks `continue` on success; when none
fires, control falls through to the free-text path over `str(instruction)`. -/
def execStructured (e : InstrEnv) (action selector _value reprText : String) :
    Nat :=
  let act := strLower action
  let selTruthy := !(selector == "")
  let structuredHit : Bool :=
    if (act == ("fill") || act == ("type")) && selTruthy then
      e.fillByLabelOk || e.fillFieldOk
    else if (act == ("select") || act == ("choose")) && selTruthy then
      e.selectOk
    else if (act == ("check") || act == ("tick")) && selTruthy then
      e.checkByLabelOk || e.checkSelectorOk
    else if act == ("click") || act == ("press") then
      e.clickByNameOk || e.clickSelectorOk
    else false
  if structuredHit then 1 else execDirectiveText e reprText

/-- Executions contributed by one instruction of either shape.  `value` is
not consulted beyond the source's own uses (all collapsed into the oracles). -/
def execInstruction (e : InstrEnv) : Instruction → Nat
  | .structured action selector value reprText =>
      execStructured e action selector value reprText
  | .directive text => execDirectiveText e text

/-- `executed_count` accumulated over `enumerate(instructions)`; the oracle
environment is indexed by the instruction's position. -/
def countExecFrom (env : Nat → InstrEnv) : Nat → List Instruction → Nat
  | _, [] => 0
  | i, inst :: rest => execInstruction (env i) inst + countExecFrom env (i + 1) rest

/-- `execute_vision_instructions` (main.py lines 1119-1400): `False` on an
empty list, otherwise whether `executed_count > 0` after the walk.  Every
per-instruction body is `try`-wrapped in the source, so the walk always
completes; totality of this definition over all oracle outcomes is the
no-exception guarantee. -/
def execute_vision_instructions (env : Nat → InstrEnv)
    (instructions : List Instruction) : Bool :=
  if instructions.isEmpty then false
  else decide (0 < countExecFrom env 0 instructions)

/-- A free-text directive none of the interpreter's substring dispatch tests
recognise (main.py lines 1256-1393). -/
def unrecognizedDirective (text : String) : Bool :=
  !(strContains text ("UNSOLVABLE_IFRAME")) &&
  (let lower := strLower text
   !(strContains lower ("click captcha image at position")) &&
   !(strContains lower ("click captcha submit")) &&
   !(strContains lower ("select option") && strContains lower ("dropdown")) &&
   !(strContains lower ("fill")) &&
   !(strContains lower ("click")) &&
   !(strContains lower ("select")) &&
   !(strContains lower ("check")))

/-!
## Submission orchestrator (main.py lines 1557-2064) and endpoint (2081-2107)

The orchestrator is `apply_to_job_async`.  Environment records supply the
outcome of every external interaction: resume loading and extraction, browser
acquisition and navigation, the per-iteration CAPTCHA/submit/screenshot/page
observations, and the final `browser.close()`.  Statuses are the string
literals of the source.
-/

/-- `MAX_RETRIES` of the self-healing loop (main.py line 1847). -/
def MAX_RETRIES : Nat := 5

/-- Inner CAPTCHA loop (main.py lines 1885-1893): `captcha_attempt` starts at
0; each pass calls `solve_captcha_brightdata` (outcome `solve n` for the nth
call, 0-based); on failure the attempt counter increments and
`should_retry "captcha"` decides whether to go round again.  Returns the
solved flag and how many solve calls were made.  The fuel argument is
`3 - attempt` and never runs out before the `attempt < 3` test fails. -/
def captcha_loop_from (solve : Nat → Bool) : Nat → Nat → Bool × Nat
  | 0, _ => (false, 0)
  | fuel + 1, attempt =>
    if attempt < 3 then
      if solve attempt then (true, 1)
      else
        let next := attempt + 1
        if (should_retry ("captcha") next).1 then
          let r := captcha_loop_from solve fuel next
          (r.1, r.2 + 1)
        else (false, 1)
    else (false, 0)

/-- The CAPTCHA clearance attempt of one loop iteration. -/
def captcha_loop (solve : Nat → Bool) : Bool × Nat :=
  captcha_loop_from solve 3 0

/-- Outcome of the robust submit-click block (main.py lines 1921-1970) for
one iteration.  `found` means the button handle was obtained and the
enabled-wait and scroll succeeded; `raisedBefore` means the lookup or wait
raised (caught at line 1967, message appended to `encountered_issues`);
`raisedOnClick` means the click itself raised after `human_click` failed
(only reachable when `allow_submit` is set, since the click is only attempted
then — with consent withheld it behaves as `found`). -/
inductive SubmitPhase where
  | notFound
  | found
  | raisedBefore (msg : String)
  | raisedOnClick (msg : String)
deriving DecidableEq

/-- What the submit block does to the loop: either break with
`awaiting_consent`, or fall through carrying new issue strings and whether a
submit click was performed. -/
inductive SubmitOutcome where
  | consentBreak
  | proceed (newIssues : List String) (clicked : Bool)
deriving DecidableEq

/-- The submit block of one iteration (main.py lines 1921-1970). -/
def submitStep (allow_submit : Bool) : SubmitPhase → SubmitOutcome
  | .notFound => .proceed [] false
  | .raisedBefore msg => .proceed [(("submit_error: ") ++ msg)] false
  | .found => if allow_submit then .proceed [] true else .consentBreak
  | .raisedOnClick msg =>
      if allow_submit then .proceed [(("submit_error: ") ++ msg)] false
      else .consentBreak

/-- Environment of one self-healing-loop iteration. -/
structure IterEnv where
  /-- outcomes of the `solve_captcha_brightdata` calls of this iteration -/
  captchaSolve : Nat → Bool
  /-- outcome of the submit-click block -/
  submit : SubmitPhase
  /-- whether the post-submit `page.screenshot` succeeded (failure breaks the
  loop, main.py line 1984) -/
  postShotOk : Bool
  /-- the page as scanned by `detect_success` after the submit attempt -/
  page : PageView
  /-- the OpenAI exchange of this iteration -/
  visionApi : VisionApi

/-- Mutable state the loop threads (drawn from `ApplicationState`, the local
`ok`/`status` variables, and counters made explicit for the statements:
`retry_count` is the loop variable; `submitClicks` counts submit-button
clicks performed; `visionExecRuns` counts `execute_vision_instructions`
invocations). -/
structure LoopState where
  ok : Bool
  status : String
  captcha_solved : Bool
  issues : List String
  retry_count : Nat
  submitClicks : Nat
  visionExecRuns : Nat
deriving DecidableEq

/-- One pass of `while retry_count < MAX_RETRIES` (main.py lines 1850-2013),
fuelled: the fuel starts at `MAX_RETRIES` and dominates the remaining
iterations, so it never runs out before the `while` condition fails. -/
def selfHealLoop (allow_submit : Bool) (key : Option String)
    (env : Nat → IterEnv) : Nat → LoopState → LoopState
  | 0, st => st
  | fuel + 1, st =>
    if st.retry_count < MAX_RETRIES then
      let rc := st.retry_count + 1
      let it := env rc
      let cap := captcha_loop it.captchaSolve
      let st := { st with retry_count := rc,
                          captcha_solved := st.captcha_solved || cap.1 }
      match submitStep allow_submit it.submit with
      | .consentBreak => { st with status := ("awaiting_consent") }
      | .proceed newIssues clicked =>
        let st := { st with issues := st.issues ++ newIssues,
                            submitClicks := st.submitClicks + cond clicked 1 0 }
        if !it.postShotOk then st
        else
          let basic := detect_success it.page
          let vision := analyze_screenshot_with_vision key it.visionApi
          if vision.success || basic then
            { st with ok := true, status := ("submitted") }
          else if !vision.instructions.isEmpty && rc < MAX_RETRIES then
            selfHealLoop allow_submit key env fuel
              { st with visionExecRuns := st.visionExecRuns + 1 }
          else { st with ok := false, status := ("not_confirmed") }
    else st

/-- Outcomes of the field-filling phase (main.py lines 1772-1830).  Only the
three `fill_by_possible_labels` calls feed `app_state.filled_fields`; the
remaining CSS-selector and autocomplete fallbacks write log lines only, so
their outcomes (`cssFills`, indexed in call order) are carried but do not
reach the result. -/
structure FillEnv where
  fullNameLabel : Bool
  emailLabel : Bool
  phoneLabel : Bool
  cssFills : Nat → Bool

/-- Environment of one whole run. -/
structure RunEnv where
  /-- `load_resume_bytes` + `extract_from_pdf_bytes`: `none` when no resume
  bytes could be loaded, otherwise the extracted field map (possibly empty) -/
  resumeExtract : Option (List (String × String))
  /-- browser acquisition and the three-mode navigation all succeeded; when
  false the run raises and the top-level handler reports `error` -/
  browserOk : Bool
  /-- `detect_application_platform` result over the live page -/
  platform : String
  /-- field-filling outcomes -/
  fill : FillEnv
  /-- per-iteration environments, indexed by `retry_count` (from 1) -/
  iters : Nat → IterEnv
  /-- `browser.close()` succeeded; when false the top-level handler turns the
  run into `error` -/
  closeOk : Bool

/-- The request: the string-field dictionary of `user_data` plus the three
non-string entries read out of it (`plan_only`, `allow_submit`,
`openai_api_key`). -/
structure UserData where
  fields : List (String × String)
  plan_only : Bool
  allow_submit : Bool
  openai_api_key : Option String

/-- The result dictionary of `apply_to_job_async`, restricted to the entries
the claims mention.  On the `missing_fields` early return the source emits a
dictionary with only `ok`/`status`/`missing`/`log`; here the remaining fields
take their initial values and `browserCreated` records that the run returned
before `async_playwright` started. -/
structure RunResult where
  ok : Bool
  status : String
  missing : List String
  platform : String
  filled_fields : List String
  issues : List String
  captcha_solved : Bool
  retry_count : Nat
  submitClicks : Nat
  visionExecRuns : Nat
  browserCreated : Bool
deriving DecidableEq

/-- `user_data` after resume-based inference (main.py lines 1576-1581):
each extracted pair is written with `setdefault`. -/
def effective_fields (req : UserData) (env : RunEnv) : List (String × String) :=
  match env.resumeExtract with
  | none => req.fields
  | some ext => ext.foldl (fun d kv => dictSetdefault d kv.1 kv.2) req.fields

/-- The `missing` list of the mandatory-field check (main.py lines 1583-1584). -/
def missingRequired (ud : List (String × String)) : List String :=
  ([("job_url"), ("email")]).filter (fun f => !(truthyStr (dictGet ud f)))

/-- `app_state.filled_fields` after the filling phase: `resume` when bytes
were uploaded, then the label-filled basics; a fill with a falsy value is
skipped, never attempted (main.py lines 1759-1780). -/
def fillPhase (ud : List (String × String)) (fe : FillEnv) (hasResume : Bool) :
    List String :=
  let f0 := if hasResume then [("resume")] else []
  let f1 := if truthyStr (dictGet ud ("full_name")) && fe.fullNameLabel
            then f0 ++ [("full_name")] else f0
  let f2 := if truthyStr (dictGet ud ("email")) && fe.emailLabel
            then f1 ++ [("email")] else f1
  if truthyStr (dictGet ud ("phone")) && fe.phoneLabel
  then f2 ++ [("phone")] else f2

/-- The loop state at entry: `ok`/`status` as initialised at main.py lines
1572-1573, the `ApplicationState` fields fresh, counters zero. -/
def initialLoopState : LoopState :=
  { ok := false, status := ("unknown"), captcha_solved := false, issues := [],
    retry_count := 0, submitClicks := 0, visionExecRuns := 0 }

/-- `apply_to_job_async` (main.py lines 1557-2064). -/
def apply_to_job_async (req : UserData) (env : RunEnv) : RunResult :=
  let ud := effective_fields req env
  let missing := missingRequired ud
  if !missing.isEmpty then
    { ok := false, status := ("missing_fields"), missing := missing,
      platform := ("unknown"), filled_fields := [], issues := [],
      captcha_solved := false, retry_count := 0, submitClicks := 0,
      visionExecRuns := 0, browserCreated := false }
  else if !env.browserOk then
    -- browser acquisition or navigation raised; caught at main.py line 2030
    { ok := false, status := ("error"), missing := [],
      platform := ("unknown"), filled_fields := [], issues := [],
      captcha_solved := false, retry_count := 0, submitClicks := 0,
      visionExecRuns := 0, browserCreated := true }
  else
    let filled := fillPhase ud env.fill env.resumeExtract.isSome
    let base : LoopState := initialLoopState
    let final : LoopState :=
      if req.plan_only then { base with status := ("planned_only") }
      else
        let l := selfHealLoop req.allow_submit req.openai_api_key env.iters
                   MAX_RETRIES base
        if MAX_RETRIES ≤ l.retry_count && !l.ok then
          { l with status := ("max_retries_reached") }
        else l
    if !env.closeOk then
      -- `browser.close()` raised; caught at main.py line 2030
      { ok := false, status := ("error"), missing := [],
        platform := env.platform, filled_fields := filled,
        issues := final.issues, captcha_solved := final.captcha_solved,
        retry_count := final.retry_count, submitClicks := final.submitClicks,
        visionExecRuns := final.visionExecRuns, browserCreated := true }
    else
      { ok := final.ok, status := final.status, missing := [],
        platform := env.platform, filled_fields := filled,
        issues := final.issues, captcha_solved := final.captcha_solved,
        retry_count := final.retry_count, submitClicks := final.submitClicks,
        visionExecRuns := final.visionExecRuns, browserCreated := true }

/-- The normalised payload built by the `/apply` endpoint. -/
structure ApplyPayload where
  ok : Bool
  status : String
  platform : String
  error : Option String
deriving DecidableEq

/-- `auto_apply` (main.py lines 2081-2107) on its non-raising path: the
result is normalised; the error text is attached when `ok` is falsy or the
status is `error`/`failed` (the lookup chain always lands on the literal
fallback, since `error_stats` never has a `fatal` key and the result carries
no `error` entry). -/
def auto_apply (req : UserData) (env : RunEnv) : ApplyPayload :=
  let result := apply_to_job_async req env
  let err := if !result.ok || result.status == ("error")
                || result.status == ("failed")
             then some ("Auto-apply failed") else none
  { ok := result.ok, status := result.status, platform := result.platform,
    error := err }

/-!
## Concrete runs used by witnesses and counterexamples
-/

/-- An empty page: no phrases, no URL change, no raised operation. -/
def pageBlank : PageView :=
  { html := "", urlChanged := false, htmlAfterChange := "", raised := false }

/-- A page showing a success phrase and a required-field complaint at once. -/
def pgMixed : PageView :=
  { html := ("Thank you! This field is required."), urlChanged := false,
    htmlAfterChange := "", raised := false }

/-- An iteration where nothing external succeeds: CAPTCHA unsolved, submit
button not found, screenshot fine, blank page, vision HTTP error. -/
def iterQuiet : IterEnv :=
  { captchaSolve := fun _ => false, submit := .notFound, postShotOk := true,
    page := pageBlank, visionApi := .httpError }

/-- Field filling where every strategy fails. -/
def fillAllFail : FillEnv :=
  { fullNameLabel := false, emailLabel := false, phoneLabel := false,
    cssFills := fun _ => false }

/-- A well-formed request without a vision credential. -/
def reqBase : UserData :=
  { fields := [(("job_url"), ("https://jobs.example/1")),
               (("email"), ("ada@example.com")),
               (("full_name"), ("Ada Lovelace"))],
    plan_only := false, allow_submit := true, openai_api_key := none }

/-- A benign run environment around `iterQuiet`. -/
def envBase : RunEnv :=
  { resumeExtract := none, browserOk := true, platform := ("generic"),
    fill := fillAllFail, iters := fun _ => iterQuiet, closeOk := true }

/-- Like `envBase` but the post-submit screenshot capture fails. -/
def envShotFail : RunEnv :=
  { envBase with iters := fun _ => { iterQuiet with postShotOk := false } }

/-- Like `envBase` but the submit click raises. -/
def envSubmitErr : RunEnv :=
  { envBase with
    iters := fun _ => { iterQuiet with submit := .raisedOnClick ("boom") } }

/-- Like `envBase` but the submit button is found and clickable. -/
def envFound : RunEnv :=
  { envBase with iters := fun _ => { iterQuiet with submit := .found } }

/-- `reqBase` in plan-only mode. -/
def reqPlan : UserData := { reqBase with plan_only := true }

/-- `reqBase` with submission consent withheld. -/
def reqNoSubmit : UserData := { reqBase with allow_submit := false }

/-- `reqBase` without an email field. -/
def reqNoEmail : UserData :=
  { reqBase with fields := [(("job_url"), ("https://jobs.example/1"))] }

/-- An interpreter oracle where every page interaction fails and every
abstracted `re.search` finds nothing. -/
def instrEnvNone : InstrEnv :=
  { fillByLabelOk := false, fillFieldOk := false, selectOk := false,
    checkByLabelOk := false, checkSelectorOk := false, clickByNameOk := false,
    clickSelectorOk := false, gridPos := none, gridSelectorClickOk := false,
    gridImgCount := 0, gridFallbackClickOk := false, captchaSubmitOk := false,
    dropdownMatch := none, dropdownOk := false, fillMatch := none,
    clickMatch := none, selectMatch := none, checkMatch := none,
    selectStrOk := false }

/-!
## Helper lemmas about the loop
-/

/-- The inner CAPTCHA loop performs at most `fuel` solve calls. -/
theorem captcha_loop_from_calls_le (solve : Nat → Bool) :
    ∀ fuel attempt, (captcha_loop_from solve fuel attempt).2 ≤ fuel := by
  intro fuel
  induction fuel with
  | zero => intro attempt; simp [captcha_loop_from]
  | succ n ih =>
    intro attempt
    simp only [captcha_loop_from]
    by_cases h1 : attempt < 3
    · simp only [h1, if_true]
      cases h2 : solve attempt
      · simp only [Bool.false_eq_true, if_false]
        cases h3 : (should_retry ("captcha") (attempt + 1)).1
        · simp
        · simp only [if_true]
          exact Nat.succ_le_succ (ih (attempt + 1))
      · simp
    · simp [h1]

/-- Either the loop leaves the status alone (fuel exhausted, `while` test
false, or the screenshot break) or it sets one of its three exit statuses. -/
theorem selfHealLoop_status_cases (a : Bool) (k : Option String)
    (e : Nat → IterEnv) :
    ∀ fuel st, (selfHealLoop a k e fuel st).status = st.status
      ∨ (selfHealLoop a k e fuel st).status = ("awaiting_consent")
      ∨ (selfHealLoop a k e fuel st).status = ("submitted")
      ∨ (selfHealLoop a k e fuel st).status = ("not_confirmed") := by
  intro fuel
  induction fuel with
  | zero => intro st; left; rfl
  | succ n ih =>
    intro st
    simp only [selfHealLoop]
    by_cases h : st.retry_count < MAX_RETRIES
    · simp only [h, if_true]
      cases hs : submitStep a (e (st.retry_count + 1)).submit with
      | consentBreak => right; left; rfl
      | proceed is c =>
        by_cases hp : (e (st.retry_count + 1)).postShotOk
        · simp only [hp, Bool.not_true, Bool.false_eq_true, if_false]
          by_cases hv :
              ((analyze_screenshot_with_vision k
                  (e (st.retry_count + 1)).visionApi).success
                || detect_success (e (st.retry_count + 1)).page) = true
          · simp [hv]
          · simp only [hv, if_false]
            by_cases hi :
                (!(analyze_screenshot_with_vision k
                    (e (st.retry_count + 1)).visionApi).instructions.isEmpty
                  && decide (st.retry_count + 1 < MAX_RETRIES)) = true
            · simp only [hi, if_true]
              exact ih _
            · simp [hi]
        · simp [hp]
    · simp [h]

/-- The loop adds at most `fuel` to `retry_count`. -/
theorem selfHealLoop_retry_le (a : Bool) (k : Option String)
    (e : Nat → IterEnv) :
    ∀ fuel st,
      (selfHealLoop a k e fuel st).retry_count ≤ st.retry_count + fuel := by
  intro fuel
  induction fuel with
  | zero => intro st; simp [selfHealLoop]
  | succ n ih =>
    intro st
    simp only [selfHealLoop]
    split
    · split
      · dsimp only; omega
      · split
        · dsimp only; omega
        · split
          · dsimp only; omega
          · split
            · exact le_trans (ih _) (by dsimp only; omega)
            · dsimp only; omega
    · omega

/-- The `ok` flag leaving the loop is exactly the test of having reached the
`submitted` status, provided it enters with `ok = False` and the initial
status `unknown`. -/
theorem selfHealLoop_ok_iff (a : Bool) (k : Option String) (e : Nat → IterEnv) :
    ∀ fuel st, st.ok = false → st.status = ("unknown") →
      (selfHealLoop a k e fuel st).ok
        = ((selfHealLoop a k e fuel st).status == ("submitted")) := by
  intro fuel
  induction fuel with
  | zero => intro st hok hst; simp only [selfHealLoop]; rw [hok, hst]; decide
  | succ n ih =>
    intro st hok hst
    simp only [selfHealLoop]
    split
    · split
      · dsimp only; rw [hok]; decide
      · split
        · dsimp only; rw [hok, hst]; decide
        · split
          · dsimp only; decide
          · split
            · exact ih _ (by dsimp only; exact hok) (by dsimp only; exact hst)
            · dsimp only; decide
    · rw [hok, hst]; decide

/-- Issue strings produced by the submit block all carry the
`submit_error: ` prefix. -/
theorem submitStep_issues (a : Bool) (ph : SubmitPhase)
    (is : List String) (c : Bool) (h : submitStep a ph = .proceed is c) :
    ∀ s ∈ is, ∃ m, s = ("submit_error: ") ++ m := by
  intro s hs
  cases ph with
  | notFound =>
    simp only [submitStep, SubmitOutcome.proceed.injEq] at h
    rcases h with ⟨h1, -⟩
    subst h1
    simp at hs
  | found =>
    by_cases ha : a = true
    · simp only [submitStep, ha, if_true, SubmitOutcome.proceed.injEq] at h
      rcases h with ⟨h1, -⟩
      subst h1
      simp at hs
    · simp [submitStep, ha] at h
  | raisedBefore msg =>
    simp only [submitStep, SubmitOutcome.proceed.injEq] at h
    rcases h with ⟨h1, -⟩
    subst h1
    simp only [List.mem_singleton] at hs
    exact ⟨msg, hs⟩
  | raisedOnClick msg =>
    by_cases ha : a = true
    · simp only [submitStep, ha, if_true, SubmitOutcome.proceed.injEq] at h
      rcases h with ⟨h1, -⟩
      subst h1
      simp only [List.mem_singleton] at hs
      exact ⟨msg, hs⟩
    · simp [submitStep, ha] at h

/-- Everything the loop appends to `encountered_issues` is a submit-click
error. -/
theorem selfHealLoop_issues (a : Bool) (k : Option String) (e : Nat → IterEnv) :
    ∀ fuel st,
      (∀ s ∈ st.issues, ∃ m, s = ("submit_error: ") ++ m) →
      ∀ s ∈ (selfHealLoop a k e fuel st).issues,
        ∃ m, s = ("submit_error: ") ++ m := by
  intro fuel
  induction fuel with
  | zero => intro st hst; simpa [selfHealLoop] using hst
  | succ n ih =>
    intro st hst
    simp only [selfHealLoop]
    split
    · cases hs : submitStep a (e (st.retry_count + 1)).submit with
      | consentBreak => dsimp only; exact hst
      | proceed is c =>
        have hboth : ∀ s ∈ st.issues ++ is, ∃ m, s = ("submit_error: ") ++ m := by
          intro s hmem
          rcases List.mem_append.1 hmem with hmem | hmem
          · exact hst s hmem
          · exact submitStep_issues a _ is c hs s hmem
        dsimp only
        split
        · exact hboth
        · split
          · exact hboth
          · split
            · exact ih _ (by dsimp only; exact hboth)
            · exact hboth
    · exact hst

/-- `submitStep` with consent withheld never reports a performed click. -/
theorem submitStep_no_consent_click (ph : SubmitPhase)
    (is : List String) (c : Bool) (h : submitStep false ph = .proceed is c) :
    c = false := by
  cases ph with
  | notFound =>
    simp only [submitStep, SubmitOutcome.proceed.injEq] at h
    exact h.2.symm
  | found => simp [submitStep] at h
  | raisedBefore msg =>
    simp only [submitStep, SubmitOutcome.proceed.injEq] at h
    exact h.2.symm
  | raisedOnClick msg => simp [submitStep] at h

/-- With submission consent withheld, the loop never performs a submit click. -/
theorem selfHealLoop_no_clicks (k : Option String) (e : Nat → IterEnv) :
    ∀ fuel st,
      (selfHealLoop false k e fuel st).submitClicks = st.submitClicks := by
  intro fuel
  induction fuel with
  | zero => intro st; simp [selfHealLoop]
  | succ n ih =>
    intro st
    simp only [selfHealLoop]
    split
    · cases hs : submitStep false (e (st.retry_count + 1)).submit with
      | consentBreak => rfl
      | proceed is c =>
        have hc : c = false := submitStep_no_consent_click _ is c hs
        subst hc
        dsimp only
        split
        · rfl
        · split
          · rfl
          · split
            · rw [ih]; rfl
            · rfl
    · rfl

/-- First iteration with consent withheld and the submit button found: the
loop breaks at once with `awaiting_consent`, leaving the click and
instruction-replay counters untouched. -/
theorem selfHealLoop_first_consent (k : Option String) (e : Nat → IterEnv)
    (st : LoopState) (fuel : Nat) (hfuel : 0 < fuel)
    (hrc : st.retry_count = 0)
    (hfound : (e 1).submit = SubmitPhase.found) :
    (selfHealLoop false k e fuel st).status = ("awaiting_consent")
    ∧ (selfHealLoop false k e fuel st).retry_count = 1
    ∧ (selfHealLoop false k e fuel st).submitClicks = st.submitClicks
    ∧ (selfHealLoop false k e fuel st).visionExecRuns = st.visionExecRuns := by
  cases fuel with
  | zero => omega
  | succ n =>
    simp [selfHealLoop, hrc, MAX_RETRIES, hfound, submitStep]

/-- First iteration with consent given, a successful post-submit screenshot,
no heuristic success, and a vision verdict that neither succeeds nor carries
instructions: the loop breaks at once with `not_confirmed`. -/
theorem selfHealLoop_first_not_confirmed (a : Bool) (ha : a = true)
    (k : Option String) (e : Nat → IterEnv) (st : LoopState) (fuel : Nat)
    (hfuel : 0 < fuel) (hrc : st.retry_count = 0)
    (hsucc : (analyze_screenshot_with_vision k (e 1).visionApi).success = false)
    (hinstr :
      (analyze_screenshot_with_vision k (e 1).visionApi).instructions = [])
    (hshot : (e 1).postShotOk = true)
    (hbasic : detect_success (e 1).page = false) :
    (selfHealLoop a k e fuel st).status = ("not_confirmed")
    ∧ (selfHealLoop a k e fuel st).retry_count = 1 := by
  subst ha
  cases fuel with
  | zero => omega
  | succ n =>
    cases hph : (e 1).submit <;>
      simp [selfHealLoop, hrc, MAX_RETRIES, hph, submitStep, hshot, hbasic,
        hsucc, hinstr]

/-- Whatever the environment does, a run enters the loop at most
`MAX_RETRIES` times. -/
theorem apply_retry_le (req : UserData) (env : RunEnv) :
    (apply_to_job_async req env).retry_count ≤ MAX_RETRIES := by
  have hloop : ∀ st : LoopState, st.retry_count = 0 →
      (selfHealLoop req.allow_submit req.openai_api_key env.iters
        MAX_RETRIES st).retry_count ≤ MAX_RETRIES := by
    intro st h
    have := selfHealLoop_retry_le req.allow_submit req.openai_api_key env.iters
      MAX_RETRIES st
    omega
  simp only [apply_to_job_async]
  split
  · dsimp only; decide
  · split
    · dsimp only; decide
    · split
      · dsimp only
        split
        · dsimp only; decide
        · split
          · dsimp only
            exact hloop _ rfl
          · exact hloop _ rfl
      · dsimp only
        split
        · dsimp only; decide
        · split
          · dsimp only
            exact hloop _ rfl
          · exact hloop _ rfl

/-- The field-filling outcomes influence only `filled_fields` (and the log):
status, success flag, and recorded issues are unchanged under any other
`FillEnv`. -/
theorem apply_fill_irrelevant (req : UserData) (env : RunEnv) (fe : FillEnv) :
    (apply_to_job_async req { env with fill := fe }).status
      = (apply_to_job_async req env).status
    ∧ (apply_to_job_async req { env with fill := fe }).ok
      = (apply_to_job_async req env).ok
    ∧ (apply_to_job_async req { env with fill := fe }).issues
      = (apply_to_job_async req env).issues := by
  cases env
  refine ⟨?_, ?_, ?_⟩ <;>
  · simp only [apply_to_job_async, effective_fields]
    split
    · rfl
    · split
      · rfl
      · split
        · rfl
        · rfl

/-- Every string a run records in `encountered_issues` is a submit-click
error. -/
theorem apply_issues_submit_error (req : UserData) (env : RunEnv) :
    ∀ s ∈ (apply_to_job_async req env).issues,
      ∃ m, s = ("submit_error: ") ++ m := by
  have hloop : ∀ s ∈ (selfHealLoop req.allow_submit req.openai_api_key
      env.iters MAX_RETRIES initialLoopState).issues,
      ∃ m, s = ("submit_error: ") ++ m := by
    refine selfHealLoop_issues _ _ _ MAX_RETRIES _ ?_
    intro s hs
    simp [initialLoopState] at hs
  simp only [apply_to_job_async]
  split
  · intro s hs; simp at hs
  · split
    · intro s hs; simp at hs
    · split
      · dsimp only
        split
        · intro s hs; simp [initialLoopState] at hs
        · split
          · dsimp only
            exact hloop
          · exact hloop
      · dsimp only
        split
        · intro s hs; simp [initialLoopState] at hs
        · split
          · dsimp only
            exact hloop
          · exact hloop

/-- Every run terminates with a status from the source's literals (the seven
documented ones plus the untouched initial `unknown`). -/
theorem apply_status_cases (req : UserData) (env : RunEnv) :
    (apply_to_job_async req env).status ∈
      [("missing_fields"), ("planned_only"), ("awaiting_consent"),
       ("submitted"), ("not_confirmed"), ("max_retries_reached"), ("error"),
       ("unknown")] := by
  have hloop := selfHealLoop_status_cases req.allow_submit req.openai_api_key
    env.iters MAX_RETRIES initialLoopState
  simp only [apply_to_job_async]
  split
  · simp
  · split
    · simp
    · split
      · simp
      · dsimp only
        split
        · simp [initialLoopState]
        · split
          · dsimp only; simp
          · rcases hloop with h | h | h | h <;> rw [h] <;> simp [initialLoopState]

/-- When the mandatory fields are present, browser work succeeds, and the
loop stops before exhausting `MAX_RETRIES`, the run result carries the loop
exit unchanged (no `max_retries_reached` override fires). -/
theorem apply_normal_run (req : UserData) (env : RunEnv)
    (hmiss : (missingRequired (effective_fields req env)).isEmpty = true)
    (hbrow : env.browserOk = true) (hclose : env.closeOk = true)
    (hplan : req.plan_only = false)
    (hlt : (selfHealLoop req.allow_submit req.openai_api_key env.iters
        MAX_RETRIES initialLoopState).retry_count < MAX_RETRIES) :
    (apply_to_job_async req env).status
      = (selfHealLoop req.allow_submit req.openai_api_key env.iters
          MAX_RETRIES initialLoopState).status
    ∧ (apply_to_job_async req env).retry_count
      = (selfHealLoop req.allow_submit req.openai_api_key env.iters
          MAX_RETRIES initialLoopState).retry_count
    ∧ (apply_to_job_async req env).submitClicks
      = (selfHealLoop req.allow_submit req.openai_api_key env.iters
          MAX_RETRIES initialLoopState).submitClicks
    ∧ (apply_to_job_async req env).visionExecRuns
      = (selfHealLoop req.allow_submit req.openai_api_key env.iters
          MAX_RETRIES initialLoopState).visionExecRuns := by
  have hnot : ¬ (MAX_RETRIES ≤ (selfHealLoop req.allow_submit
      req.openai_api_key env.iters MAX_RETRIES initialLoopState).retry_count) :=
    not_le.mpr hlt
  simp [apply_to_job_async, hmiss, hbrow, hclose, hplan, hnot]

/-!
## The claims
-/

/-- Claim C1 (corrected).  With the vision credential absent,
`analyze_screenshot_with_vision` always returns the fixed verdict
`{success: false, reason: "API key not provided", instructions: []}`; but a
run with that credential absent and no heuristic success does **not** spin
for `MAX_RETRIES` iterations: because the verdict carries no instructions,
the self-healing loop exits on its **first** iteration with status
`not_confirmed`. -/
theorem C1_no_vision_key_first_iteration (req : UserData) (env : RunEnv)
    (api : VisionApi)
    (hkey : req.openai_api_key = none)
    (hplan : req.plan_only = false)
    (hallow : req.allow_submit = true)
    (hmiss : (missingRequired (effective_fields req env)).isEmpty = true)
    (hbrow : env.browserOk = true)
    (hclose : env.closeOk = true)
    (hshot : (env.iters 1).postShotOk = true)
    (hbasic : detect_success (env.iters 1).page = false) :
    analyze_screenshot_with_vision req.openai_api_key api
      = { success := false, reason := ("API key not provided"),
          instructions := [] }
    ∧ (apply_to_job_async req env).status = ("not_confirmed")
    ∧ (apply_to_job_async req env).retry_count = 1 := by
  have hverd : ∀ a : VisionApi,
      analyze_screenshot_with_vision req.openai_api_key a
        = { success := false, reason := ("API key not provided"),
            instructions := [] } := by
    intro a; rw [hkey]; rfl
  have hl := selfHealLoop_first_not_confirmed req.allow_submit hallow
    req.openai_api_key env.iters initialLoopState MAX_RETRIES (by decide) rfl
    (by rw [hverd]) (by rw [hverd]) hshot hbasic
  have hnr := apply_normal_run req env hmiss hbrow hclose hplan
    (by rw [hl.2]; decide)
  exact ⟨hverd api, hnr.1.trans hl.1, hnr.2.1.trans hl.2⟩

/-- Claim C1, witness run: `reqBase` has no key; the run ends `not_confirmed`
after one iteration. -/
theorem C1_witness :
    reqBase.openai_api_key = none
    ∧ (apply_to_job_async reqBase envBase).status = ("not_confirmed")
    ∧ (apply_to_job_async reqBase envBase).retry_count = 1 := by
  have h := C1_no_vision_key_first_iteration reqBase envBase VisionApi.httpError
    rfl rfl rfl (by decide) rfl rfl rfl (by decide)
  exact ⟨rfl, h.2.1, h.2.2⟩

/-- Claim C1, counterexample to the claim as stated: a run with the vision
credential absent and no heuristic success whose final status is not
`max_retries_reached` and which performs only one iteration, not
`MAX_RETRIES`. -/
theorem C1_counterexample :
    reqBase.openai_api_key = none
    ∧ detect_success (envBase.iters 1).page = false
    ∧ (apply_to_job_async reqBase envBase).status ≠ ("max_retries_reached")
    ∧ (apply_to_job_async reqBase envBase).retry_count ≠ MAX_RETRIES := by
  exact ⟨rfl, by decide, by decide, by decide⟩

/-- Claim C2 (amended).  Every run (and its endpoint payload) terminates
with one of the seven documented status strings **or** the initial
`"unknown"`, which survives when the post-submit screenshot capture fails
and breaks the loop before exhausting the retries. -/
theorem C2_status_set (req : UserData) (env : RunEnv) :
    (apply_to_job_async req env).status ∈
      [("missing_fields"), ("planned_only"), ("awaiting_consent"),
       ("submitted"), ("not_confirmed"), ("max_retries_reached"), ("error"),
       ("unknown")]
    ∧ (auto_apply req env).status ∈
      [("missing_fields"), ("planned_only"), ("awaiting_consent"),
       ("submitted"), ("not_confirmed"), ("max_retries_reached"), ("error"),
       ("unknown")] := by
  refine ⟨apply_status_cases req env, ?_⟩
  simpa [auto_apply] using apply_status_cases req env

/-- Claim C2, counterexample to the claim as stated: when the post-submit
screenshot capture fails on the first iteration, the run terminates with
status `"unknown"`, which is none of the seven documented values. -/
theorem C2_counterexample :
    (apply_to_job_async reqBase envShotFail).status = ("unknown")
    ∧ ("unknown" : String) ∉
      [("missing_fields"), ("planned_only"), ("awaiting_consent"),
       ("submitted"), ("not_confirmed"), ("max_retries_reached"),
       ("error")] := by
  exact ⟨by decide, by decide⟩

/-- Claim C3 (confirmed).  When `job_url` or `email` is missing or empty
after resume-based inference, the run returns `missing_fields` immediately:
no browser session is created and the self-healing loop never runs. -/
theorem C3_missing_fields_terminal (req : UserData) (env : RunEnv)
    (h : truthyStr (dictGet (effective_fields req env) ("job_url")) = false
       ∨ truthyStr (dictGet (effective_fields req env) ("email")) = false) :
    (apply_to_job_async req env).status = ("missing_fields")
    ∧ (apply_to_job_async req env).browserCreated = false
    ∧ (apply_to_job_async req env).retry_count = 0 := by
  have hne : (!(missingRequired (effective_fields req env)).isEmpty) = true := by
    rcases h with h | h
    · simp [missingRequired, h]
    · cases hj : truthyStr (dictGet (effective_fields req env) ("job_url")) <;>
        simp [missingRequired, h, hj]
  simp [apply_to_job_async, hne]

/-- Claim C3, witness: a request without an email field. -/
theorem C3_witness :
    truthyStr (dictGet (effective_fields reqNoEmail envBase) ("email")) = false
    ∧ (apply_to_job_async reqNoEmail envBase).status = ("missing_fields")
    ∧ (apply_to_job_async reqNoEmail envBase).browserCreated = false
    ∧ (apply_to_job_async reqNoEmail envBase).retry_count = 0 := by
  have h := C3_missing_fields_terminal reqNoEmail envBase (Or.inr (by decide))
  exact ⟨by decide, h.1, h.2.1, h.2.2⟩

/-- Claim C4 (confirmed).  A run with `plan_only` false and `allow_submit`
false that reaches the loop with a clickable submit button halts on the
first iteration with `awaiting_consent`; no submit click is ever performed
and no vision corrections are ever replayed. -/
theorem C4_awaiting_consent_no_click (req : UserData) (env : RunEnv)
    (hplan : req.plan_only = false)
    (hallow : req.allow_submit = false)
    (hmiss : (missingRequired (effective_fields req env)).isEmpty = true)
    (hbrow : env.browserOk = true)
    (hclose : env.closeOk = true)
    (hfound : (env.iters 1).submit = SubmitPhase.found) :
    (apply_to_job_async req env).status = ("awaiting_consent")
    ∧ (apply_to_job_async req env).submitClicks = 0
    ∧ (apply_to_job_async req env).visionExecRuns = 0 := by
  have hl := selfHealLoop_first_consent req.openai_api_key env.iters
    initialLoopState MAX_RETRIES (by decide) rfl hfound
  rw [← hallow] at hl
  have hnr := apply_normal_run req env hmiss hbrow hclose hplan
    (by rw [hl.2.1]; decide)
  exact ⟨hnr.1.trans hl.1, hnr.2.2.1.trans (hl.2.2.1.trans rfl),
    hnr.2.2.2.trans (hl.2.2.2.trans rfl)⟩

/-- Claim C4, witness run: consent withheld with a clickable submit button. -/
theorem C4_witness :
    (envFound.iters 1).submit = SubmitPhase.found
    ∧ (apply_to_job_async reqNoSubmit envFound).status = ("awaiting_consent")
    ∧ (apply_to_job_async reqNoSubmit envFound).submitClicks = 0
    ∧ (apply_to_job_async reqNoSubmit envFound).visionExecRuns = 0 := by
  have h := C4_awaiting_consent_no_click reqNoSubmit envFound rfl rfl
    (by decide) rfl rfl rfl
  exact ⟨rfl, h.1, h.2.1, h.2.2⟩

/-- Claim C5 (confirmed).  The heuristic outcome detector fails whenever a
negative phrase is present, even with a positive phrase on the page; with no
negative phrase it succeeds on a positive phrase; with neither kind present
its verdict is exactly the URL-change rescan of positive phrases on the new
page. -/
theorem C5_negative_precedence (pg : PageView) :
    ((∃ h ∈ error_hits, strContains (strLower pg.html) h = true) →
      detect_success pg = false)
    ∧ (pg.raised = false →
        (∀ h ∈ error_hits, strContains (strLower pg.html) h = false) →
        (∃ h ∈ SUCCESS_HINTS, strContains (strLower pg.html) h = true) →
        detect_success pg = true)
    ∧ (pg.raised = false →
        (∀ h ∈ error_hits, strContains (strLower pg.html) h = false) →
        (∀ h ∈ SUCCESS_HINTS, strContains (strLower pg.html) h = false) →
        detect_success pg
          = (pg.urlChanged
              && SUCCESS_HINTS.any
                  (fun h => strContains (strLower pg.htmlAfterChange) h))) := by
  refine ⟨?_, ?_, ?_⟩
  · rintro ⟨h, hmem, hc⟩
    by_cases hr : pg.raised
    · simp [detect_success, hr]
    · have hany : error_hits.any (fun x => strContains (strLower pg.html) x)
          = true := List.any_eq_true.mpr ⟨h, hmem, hc⟩
      simp [detect_success, hr, hany]
  · intro hr hneg hpos
    have hnone : error_hits.any (fun x => strContains (strLower pg.html) x)
        = false := by
      simp only [List.any_eq_false]
      intro x hx
      simp [hneg x hx]
    rcases hpos with ⟨h, hmem, hc⟩
    have hany : SUCCESS_HINTS.any (fun x => strContains (strLower pg.html) x)
        = true := List.any_eq_true.mpr ⟨h, hmem, hc⟩
    simp [detect_success, hr, hnone, hany]
  · intro hr hneg hposn
    have hnone : error_hits.any (fun x => strContains (strLower pg.html) x)
        = false := by
      simp only [List.any_eq_false]
      intro x hx
      simp [hneg x hx]
    have hnone2 : SUCCESS_HINTS.any (fun x => strContains (strLower pg.html) x)
        = false := by
      simp only [List.any_eq_false]
      intro x hx
      simp [hposn x hx]
    cases hu : pg.urlChanged <;> simp [detect_success, hr, hnone, hnone2, hu]

/-- Claim C5, witness: a page carrying both `thank you` and `required` is
judged a failure. -/
theorem C5_witness :
    (∃ h ∈ error_hits, strContains (strLower pgMixed.html) h = true)
    ∧ (∃ h ∈ SUCCESS_HINTS, strContains (strLower pgMixed.html) h = true)
    ∧ detect_success pgMixed = false := by
  refine ⟨⟨("required"), by decide, by decide⟩,
    ⟨("thank you"), by decide, by decide⟩, ?_⟩
  exact (C5_negative_precedence pgMixed).1 ⟨("required"), by decide, by decide⟩

/-- Claim C6 (confirmed).  `should_retry` refuses (and does not sleep) as
soon as the attempt counter reaches the category threshold — captcha 3,
network 5, form_not_found 2, submit 3, anything else 2 — and below the
threshold it sleeps the category delay and accepts. -/
theorem C6_should_retry_policy (cat : String) (attempt : Nat) :
    ((retry_patterns cat).1 ≤ attempt → should_retry cat attempt = (false, none))
    ∧ (attempt < (retry_patterns cat).1 →
        should_retry cat attempt = (true, some (retry_patterns cat).2))
    ∧ retry_patterns ("captcha") = (3, 5)
    ∧ retry_patterns ("network") = (5, 2)
    ∧ retry_patterns ("form_not_found") = (2, 3)
    ∧ retry_patterns ("submit") = (3, 4)
    ∧ (cat ≠ ("captcha") → cat ≠ ("network") → cat ≠ ("form_not_found") →
        cat ≠ ("submit") → retry_patterns cat = (2, 2)) := by
  refine ⟨?_, ?_, by decide, by decide, by decide, by decide, ?_⟩
  · intro h
    simp only [should_retry]
    rw [if_pos h]
  · intro h
    simp only [should_retry]
    rw [if_neg (not_le.mpr h)]
  · intro h1 h2 h3 h4
    simp [retry_patterns, h1, h2, h3, h4]

/-- Claim C6, witness: the captcha category at and below its threshold, and
an unlisted category falling back to the default pair. -/
theorem C6_witness :
    should_retry ("captcha") 3 = (false, none)
    ∧ should_retry ("captcha") 2 = (true, some 5)
    ∧ retry_patterns ("unlisted") = (2, 2) := by
  refine ⟨(C6_should_retry_policy ("captcha") 3).1 (by decide), ?_, ?_⟩
  · exact (C6_should_retry_policy ("captcha") 2).2.1 (by decide)
  · exact (C6_should_retry_policy ("unlisted") 0).2.2.2.2.2.2
      (by decide) (by decide) (by decide) (by decide)

/-- Claim C7 (confirmed).  The self-healing loop iterates at most
`MAX_RETRIES = 5` times in every run, and each iteration calls the CAPTCHA
solver at most 3 times, so the loop is bounded and terminates. -/
theorem C7_loop_bounded (req : UserData) (env : RunEnv) (solve : Nat → Bool) :
    (apply_to_job_async req env).retry_count ≤ MAX_RETRIES
    ∧ (captcha_loop solve).2 ≤ 3 :=
  ⟨apply_retry_le req env, captcha_loop_from_calls_le solve 3 0⟩

/-- Claim C8 (corrected).  Failure of every fill strategy for a field never
terminates or alters the outcome of the run, but — contrary to the claim —
no issue string is appended to the state's `encountered_issues` for it:
the only strings ever appended there are submit-click errors. -/
theorem C8_issues_only_submit_errors (req : UserData) (env : RunEnv)
    (fe : FillEnv) :
    (∀ s ∈ (apply_to_job_async req env).issues,
      ∃ m, s = ("submit_error: ") ++ m)
    ∧ (apply_to_job_async req { env with fill := fe }).status
      = (apply_to_job_async req env).status
    ∧ (apply_to_job_async req { env with fill := fe }).ok
      = (apply_to_job_async req env).ok
    ∧ (apply_to_job_async req { env with fill := fe }).issues
      = (apply_to_job_async req env).issues :=
  ⟨apply_issues_submit_error req env, apply_fill_irrelevant req env fe⟩

/-- Claim C8, witness: a run whose submit click raises records exactly a
`submit_error: ` issue string. -/
theorem C8_witness :
    ("submit_error: boom") ∈ (apply_to_job_async reqBase envSubmitErr).issues
    ∧ (∃ m, ("submit_error: boom") = ("submit_error: ") ++ m) := by
  refine ⟨by decide, ?_⟩
  exact (C8_issues_only_submit_errors reqBase envSubmitErr fillAllFail).1 _
    (by decide)

/-- Claim C8, counterexample to the claim as stated: a run in which every
fill strategy for the non-empty `full_name` field fails, yet
`encountered_issues` stays empty — the failure is not recorded there. -/
theorem C8_counterexample :
    envBase.fill.fullNameLabel = false
    ∧ dictGet (effective_fields reqPlan envBase) ("full_name")
      = some ("Ada Lovelace")
    ∧ (apply_to_job_async reqPlan envBase).filled_fields = []
    ∧ (apply_to_job_async reqPlan envBase).issues = []
    ∧ (apply_to_job_async reqPlan envBase).status = ("planned_only") := by
  exact ⟨rfl, by decide, by decide, by decide, by decide⟩

/-- `executed_count` over a suffix is positive exactly when some instruction
of the suffix (paired with its index) executes. -/
theorem countExecFrom_pos_iff (env : Nat → InstrEnv) :
    ∀ (l : List Instruction) (i : Nat),
      0 < countExecFrom env i l
        ↔ ∃ p ∈ l.enumFrom i, execInstruction (env p.1) p.2 ≠ 0 := by
  intro l
  induction l with
  | nil => intro i; simp [countExecFrom]
  | cons a t ih =>
    intro i
    simp only [countExecFrom, List.enumFrom]
    constructor
    · intro h
      by_cases hx : execInstruction (env i) a = 0
      · have ht : 0 < countExecFrom env (i + 1) t := by omega
        rcases (ih (i + 1)).1 ht with ⟨p, hp, hne⟩
        exact ⟨p, List.mem_cons_of_mem _ hp, hne⟩
      · exact ⟨(i, a), List.mem_cons_self _ _, hx⟩
    · rintro ⟨p, hp, hne⟩
      rcases List.mem_cons.1 hp with rfl | hp
      · have : 0 < execInstruction (env i) a := Nat.pos_of_ne_zero hne
        omega
      · have := (ih (i + 1)).2 ⟨p, hp, hne⟩
        omega

/-- Claim C9 (confirmed).  The interpreter returns true exactly when at
least one instruction executed an action (it is total over every oracle
outcome, reflecting that every per-instruction body is exception-guarded),
and a free-text directive none of its dispatch patterns recognise executes
zero page actions under every oracle. -/
theorem C9_interpreter_total (env : Nat → InstrEnv)
    (insts : List Instruction) :
    (execute_vision_instructions env insts = true
      ↔ ∃ p ∈ insts.enum, execInstruction (env p.1) p.2 ≠ 0)
    ∧ (∀ (e : InstrEnv) (text : String), unrecognizedDirective text = true →
        execInstruction e (.directive text) = 0) := by
  constructor
  · unfold execute_vision_instructions
    split
    · rename_i hE
      have hnil : insts = [] := by
        cases insts with
        | nil => rfl
        | cons a t => simp at hE
      subst hnil
      simp
    · simp only [decide_eq_true_eq]
      exact countExecFrom_pos_iff env insts 0
  · intro e text h
    simp only [unrecognizedDirective, Bool.and_eq_true, Bool.not_eq_true'] at h
    obtain ⟨h1, ⟨⟨⟨⟨⟨h2, h3⟩, h4⟩, h5⟩, h6⟩, h7⟩, h8⟩ := h
    simp only [execInstruction, execDirectiveText, h1, h2, h3, h4, h5, h6, h7,
      h8, Bool.false_eq_true, if_false]

/-- Claim C9, witness: an unknown directive executes nothing, and a list
holding only it makes the interpreter return false. -/
theorem C9_witness :
    unrecognizedDirective ("frobnicate the page") = true
    ∧ execInstruction instrEnvNone
        (Instruction.directive ("frobnicate the page")) = 0
    ∧ execute_vision_instructions (fun _ => instrEnvNone)
        [Instruction.directive ("frobnicate the page")] = false := by
  refine ⟨by decide, ?_, by decide⟩
  exact (C9_interpreter_total (fun _ => instrEnvNone) []).2 instrEnvNone
    ("frobnicate the page") (by decide)

/-- Claim C10 (confirmed).  In every run result and in the endpoint's
normalised payload, the `ok` flag holds exactly when the status is
`submitted`; every other terminal status, the error path included, carries
`ok = false`. -/
theorem C10_ok_iff_submitted (req : UserData) (env : RunEnv) :
    (apply_to_job_async req env).ok
      = ((apply_to_job_async req env).status == ("submitted"))
    ∧ (auto_apply req env).ok = ((auto_apply req env).status == ("submitted")) := by
  have hloop := selfHealLoop_ok_iff req.allow_submit req.openai_api_key
    env.iters MAX_RETRIES initialLoopState rfl rfl
  have hmain : (apply_to_job_async req env).ok
      = ((apply_to_job_async req env).status == ("submitted")) := by
    simp only [apply_to_job_async]
    split
    · dsimp only; decide
    · split
      · dsimp only; decide
      · split
        · dsimp only; decide
        · dsimp only
          split
          · simp [initialLoopState]
          · split
            · rename_i hgt
              dsimp only
              have h2 : (selfHealLoop req.allow_submit req.openai_api_key
                  env.iters MAX_RETRIES initialLoopState).ok = false := by
                have h3 := hgt
                rw [Bool.and_eq_true] at h3
                simpa using h3.2
              rw [h2]; decide
            · exact hloop
  refine ⟨hmain, ?_⟩
  simpa [auto_apply] using hmain
